import Mathlib

/-!
Shallow embedding of the data-reconciliation pipeline in
`src/02_raw_data_walkthrough.ipynb`: CRSP monthly mutual-fund returns and
S12 quarterly holdings are linked to fund-level identifiers (wficn),
aggregated to fund-year records, joined, and passed through three universe
filters.  Numeric columns are modelled as rationals; nullable columns as
`Option ℚ`.  Dataframes are lists of rows; pandas group-aggregations are
modelled by filtering the row list on the group key.  Aggregation steps
take the frame produced by the previous stage as an argument; the
top-level pipeline functions compose the stages in the notebook's order.
-/

namespace FactorDemand

/-- Row of the CRSP monthly panel after the loader: share-class id
`crsp_fundno`, calendar year and month extracted from `caldt`, monthly
return `mret` and monthly TNA `mtna` (both nullable). -/
structure CrspRow where
  crsp_fundno : ℕ
  year : ℤ
  month : ℕ
  mret : Option ℚ
  mtna : Option ℚ
  deriving DecidableEq, Repr

/-- Row of the static link table `mflink1`: share-class id to fund-level
id `wficn` (nullable in the raw table). -/
structure Link1Row where
  crsp_fundno : ℕ
  wficn : Option ℕ
  deriving DecidableEq, Repr

/-- Inner join of the CRSP panel with `mflink1` on `crsp_fundno`
(`df_crsp.merge(df_mflink1, how="inner", on="crsp_fundno")`): each CRSP row
is paired with the wficn of every link row carrying its share-class id;
rows with no link row are dropped. -/
def mergeLink1 (crsp : List CrspRow) (lnk1 : List Link1Row) :
    List (CrspRow × Option ℕ) :=
  crsp.flatMap fun r =>
    (lnk1.filter fun l => l.crsp_fundno == r.crsp_fundno).map fun l => (r, l.wficn)

/-- Drop rows whose wficn is null
(`df_crsp = df_crsp[df_crsp['wficn'].notnull()]`). -/
def dropNullWficn (l : List (CrspRow × Option ℕ)) : List (CrspRow × ℕ) :=
  l.filterMap fun p => p.2.map fun w => (p.1, w)

/-- Replace missing monthly returns by zero
(`df_crsp['mret'] = df_crsp['mret'].fillna(0)`). -/
def fillMret (l : List (CrspRow × ℕ)) : List (CrspRow × ℕ) :=
  l.map fun p => ({ p.1 with mret := some (p.1.mret.getD 0) }, p.2)

/-- Cleaned CRSP frame used by all downstream steps: link, drop unmatched,
fill missing returns. -/
def crspFrame (crsp : List CrspRow) (lnk1 : List Link1Row) :
    List (CrspRow × ℕ) :=
  fillMret (dropNullWficn (mergeLink1 crsp lnk1))

/-- Rows of a frame belonging to the group (wficn, year, month). -/
def retGroup (l : List (CrspRow × ℕ)) (w : ℕ) (y : ℤ) (m : ℕ) :
    List (CrspRow × ℕ) :=
  l.filter fun p => p.2 == w && p.1.year == y && p.1.month == m

/-- Mean of a nullable column as pandas computes it: sum of the non-null
entries divided by their count (skipna). -/
def optMean (xs : List (Option ℚ)) : ℚ :=
  ((xs.filterMap id).sum) / ((xs.filterMap id).length : ℚ)

/-- Per-(wficn, year, month) simple mean of `mret` across share classes
(`df_crsp.groupby(["wficn","year","month"])["mret"].mean()`), computed on
the cleaned frame, whose missing returns are already filled with zero. -/
def monthMean (l : List (CrspRow × ℕ)) (w : ℕ) (y : ℤ) (m : ℕ) : ℚ :=
  optMean ((retGroup l w y m).map fun p => p.1.mret)

/-- Months of the year with at least one observation for the fund
(the distinct `month` values of the (wficn, year) group). -/
def monthsPresent (l : List (CrspRow × ℕ)) (w : ℕ) (y : ℤ) : List ℕ :=
  ((l.filter fun p => p.2 == w && p.1.year == y).map fun p => p.1.month).dedup

/-- Cumulative product of (1 + monthly mean) over the months of the
(wficn, year) group sorted by month, taken at month `m`
(`df_ret["cumret"] = ...groupby(["wficn","year"])["mult"].cumprod()`):
the value on the row of month `m` multiplies the factors of every present
month up to and including `m`. -/
def cumretAt (l : List (CrspRow × ℕ)) (w : ℕ) (y : ℤ) (m : ℕ) : ℚ :=
  (((monthsPresent l w y).filter fun m2 => m2 ≤ m).map
    fun m2 => 1 + monthMean l w y m2).prod

/-- Annual return of a fund-year (`df_ret.query("month==12")`, then
`yret = cumret - 1`): present exactly when the fund has a December row
that year, and then equal to the December cumulative product minus one. -/
def yret (l : List (CrspRow × ℕ)) (w : ℕ) (y : ℤ) : Option ℚ :=
  if retGroup l w y 12 = [] then none
  else some (cumretAt l w y 12 - 1)

/-- Year-end TNA of a fund-year (`df_crsp.query("month==12")
.groupby(["wficn","year"])["mtna"].sum()`): present exactly when the fund
has a December row that year, and then equal to the sum of the non-null
December `mtna` values across share classes (pandas sum skips nulls). -/
def crspTna (l : List (CrspRow × ℕ)) (w : ℕ) (y : ℤ) : Option ℚ :=
  if retGroup l w y 12 = [] then none
  else some (((retGroup l w y 12).filterMap fun p => p.1.mtna).sum)

/-- Fund-year record of `df_crsp_clean = pd.merge(df_tna, df_ret)`:
year-end TNA paired with annual return, present when both sides are
(inner merge on (wficn, year)). -/
def crspClean (l : List (CrspRow × ℕ)) (w : ℕ) (y : ℤ) : Option (ℚ × ℚ) :=
  match crspTna l w y, yret l w y with
  | some t, some r => some (t, r)
  | _, _ => none

/-- Row of the S12 quarterly holdings panel after the loader: report id
`fundno`, report date `fdate` (modelled as a day ordinal), the calendar
year of `fdate` (computed by `df_s12["fdate"].dt.year` in the source and
carried here as a field since the date is abstract), reported TNA
`assets` (nullable) and US-equity holdings value `useq_tna_k`
(nullable, unit: thousands). -/
structure S12Row where
  fundno : ℕ
  fdate : ℤ
  year : ℤ
  assets : Option ℚ
  useq_tna_k : Option ℚ
  deriving DecidableEq, Repr

/-- Row of the time-varying link table `mflink2`: report date, report id
`fundno`, fund-level id `wficn` (nullable in the raw table). -/
structure Link2Row where
  fdate : ℤ
  fundno : ℕ
  wficn : Option ℕ
  deriving DecidableEq, Repr

/-- Nearest-date match of `pd.merge_asof(..., by='fundno', on='fdate',
direction='nearest')`: among the link rows with the given report id, the
one whose date is closest to the given date (on equal distance the
earlier row of the date-sorted table is kept); none when the id has no
link row at all. -/
def asofNearest (lnk2 : List Link2Row) (fno : ℕ) (fd : ℤ) : Option Link2Row :=
  (lnk2.filter fun l => l.fundno == fno).foldl
    (fun acc l =>
      match acc with
      | none => some l
      | some b => if |fd - l.fdate| < |fd - b.fdate| then some l else some b)
    none

/-- Each S12 row annotated with the wficn of its nearest-date link row
(null when there is no link row or the matched link row has null wficn). -/
def mergeAsof (s12 : List S12Row) (lnk2 : List Link2Row) :
    List (S12Row × Option ℕ) :=
  s12.map fun s => (s, (asofNearest lnk2 s.fundno s.fdate).bind fun l => l.wficn)

/-- Matched S12 frame after `df_s12 = df_s12[df_s12['wficn'].notnull()]`:
rows that received a fund-level id. -/
def matchedS12 (s12 : List S12Row) (lnk2 : List Link2Row) :
    List (S12Row × ℕ) :=
  (mergeAsof s12 lnk2).filterMap fun p => p.2.map fun w => (p.1, w)

/-- Group keys of `df_s12.groupby(['year','fdate','wficn','assets'])` for a
fixed (wficn, year): the distinct (fdate, assets-filled-with-zero) pairs of
the fund-year's rows (`df_s12['assets'] = df_s12['assets'].fillna(0)` runs
first, so the key carries 0 where assets was missing). -/
def eqKeys (m : List (S12Row × ℕ)) (w : ℕ) (y : ℤ) : List (ℤ × ℚ) :=
  ((m.filter fun p => p.2 == w && p.1.year == y).map
    fun p => (p.1.fdate, p.1.assets.getD 0)).dedup

/-- Sum of `useq_tna_k` over one (year, fdate, wficn, assets) group
(pandas groupby sum skips nulls and yields 0 on an all-null group). -/
def useqSum (m : List (S12Row × ℕ)) (w : ℕ) (y : ℤ) (k : ℤ × ℚ) : ℚ :=
  ((m.filter fun p =>
      p.2 == w && p.1.year == y && p.1.fdate == k.1 && p.1.assets.getD 0 == k.2)
    |>.filterMap fun p => p.1.useq_tna_k).sum

/-- Order on the group keys induced by the sort of the grouped frame
(sorted by year, fdate, wficn, assets; within a fund-year: by fdate, then
by the filled assets value). -/
def keyLe (p q : ℤ × ℚ) : Prop :=
  p.1 < q.1 ∨ (p.1 = q.1 ∧ p.2 ≤ q.2)

instance : DecidableRel keyLe := fun p q => by
  unfold keyLe; infer_instance

/-- Step of the running-maximum fold over group keys. -/
def lastStep (acc : Option (ℤ × ℚ)) (k : ℤ × ℚ) : Option (ℤ × ℚ) :=
  match acc with
  | none => some k
  | some b => if keyLe b k then some k else some b

/-- Last key in the sort order, i.e. the maximal key of the list
(none on the empty list). -/
def lastKey (ks : List (ℤ × ℚ)) : Option (ℤ × ℚ) :=
  ks.foldl lastStep none

/-- Assets column of `df_eq.groupby(['wficn','year'])[['assets',
'useq_tna_k']].last()` for one fund-year, after
`df_eq['assets'] = np.where(df_eq['assets'] == 0, np.nan, df_eq['assets'])`
recoded the zero sentinel back to missing: pandas `last()` skips nulls, so
this is the assets value of the last group key whose recoded assets is
non-missing, and missing when every key carries the zero sentinel. -/
def dfEqAssets (m : List (S12Row × ℕ)) (w : ℕ) (y : ℤ) : Option ℚ :=
  (lastKey ((eqKeys m w y).filter fun k => k.2 != 0)).map fun k => k.2

/-- Equity-holdings column of the same `last()` aggregation: the summed
`useq_tna_k` of the last group key of the fund-year (never null after the
sum, so `last()` takes the chronologically last group). -/
def dfEqUseq (m : List (S12Row × ℕ)) (w : ℕ) (y : ℤ) : Option ℚ :=
  (lastKey (eqKeys m w y)).map fun k => useqSum m w y k

/-- Fund-year record of `df_eq` after both groupbys: present exactly when
the fund-year has at least one matched holdings row. -/
def dfEqRow (m : List (S12Row × ℕ)) (w : ℕ) (y : ℤ) :
    Option (Option ℚ × ℚ) :=
  match dfEqUseq m w y with
  | some u => some (dfEqAssets m w y, u)
  | none => none

/-- Joined fund-year record of `df_combo = pd.merge(df_crsp_clean, df_eq,
on=["wficn","year"], how="inner")`. -/
structure ComboRow where
  wficn : ℕ
  year : ℤ
  crsp_tna : ℚ
  yret : ℚ
  assets : Option ℚ
  useq_tna_k : ℚ
  deriving DecidableEq, Repr

/-- Candidate (wficn, year) keys of the join: the distinct keys of the
CRSP side (a key missing there can produce no inner-join row). -/
def comboKeys (l : List (CrspRow × ℕ)) : List (ℕ × ℤ) :=
  (l.map fun p => (p.2, p.1.year)).dedup

/-- Joined fund-year table `df_combo` built from the cleaned CRSP frame
and the matched S12 frame: one row per (wficn, year) key present on both
sides. -/
def mkCombo (l : List (CrspRow × ℕ)) (m : List (S12Row × ℕ)) :
    List ComboRow :=
  (comboKeys l).filterMap fun k =>
    match crspClean l k.1 k.2, dfEqRow m k.1 k.2 with
    | some (t, r), some (a, u) => some ⟨k.1, k.2, t, r, a, u⟩
    | _, _ => none

/-- Joined fund-year table computed from the four raw inputs. -/
def dfCombo (crsp : List CrspRow) (lnk1 : List Link1Row)
    (s12 : List S12Row) (lnk2 : List Link2Row) : List ComboRow :=
  mkCombo (crspFrame crsp lnk1) (matchedS12 s12 lnk2)

/-- First universe filter (`df_combo.query("crsp_tna > 1")`): year-end TNA
above 1 million. -/
def filterTnaMin (l : List ComboRow) : List ComboRow :=
  l.filter fun r => decide (1 < r.crsp_tna)

/-- TNA consistency ratio (`df_combo["tna_ratio"] = np.where(assets.isnull(),
1, crsp_tna * 1e6 / assets / 1e4)`). -/
def tnaRat (r : ComboRow) : ℚ :=
  match r.assets with
  | none => 1
  | some a => r.crsp_tna * 1000000 / a / 10000

/-- Second universe filter
(`df_combo.query("tna_ratio > 0.5 and tna_ratio < 2")`). -/
def filterTnaRat (l : List ComboRow) : List ComboRow :=
  l.filter fun r => decide ((0.5 : ℚ) < tnaRat r ∧ tnaRat r < 2)

/-- First equity ratio (`df_combo["eq_ratio_1"] = useq_tna_k * 1e3 /
(crsp_tna * 1e6)`): equity-holdings value against CRSP TNA. -/
def eqRat1 (r : ComboRow) : ℚ :=
  r.useq_tna_k * 1000 / (r.crsp_tna * 1000000)

/-- Second equity ratio (`df_combo["eq_ratio_2"] = np.where(assets.isnull(),
1, useq_tna_k * 1e3 / (assets * 1e4))`): equity-holdings value against
holdings-reported assets, defaulted to 1 when assets is missing. -/
def eqRat2 (r : ComboRow) : ℚ :=
  match r.assets with
  | none => 1
  | some a => r.useq_tna_k * 1000 / (a * 10000)

/-- Third universe filter (`df_combo[(eq_ratio_1.between(0.8, 1.05)) |
(eq_ratio_2.between(0.8, 1.05))]`, `between` being inclusive). -/
def filterEqRat (l : List ComboRow) : List ComboRow :=
  l.filter fun r =>
    decide (((0.8 : ℚ) ≤ eqRat1 r ∧ eqRat1 r ≤ 1.05) ∨
      ((0.8 : ℚ) ≤ eqRat2 r ∧ eqRat2 r ≤ 1.05))

/-- Final universe: the three filters applied to the joined table in the
notebook's order. -/
def comboFinal (crsp : List CrspRow) (lnk1 : List Link1Row)
    (s12 : List S12Row) (lnk2 : List Link2Row) : List ComboRow :=
  filterEqRat (filterTnaRat (filterTnaMin (dfCombo crsp lnk1 s12 lnk2)))

/-- Specification-side counterpart of `dfEqAssets` for the refinement
comparison in C5: the spec reads the aggregation as returning the reported
assets of the chronologically last quarterly report of the year, with the
zero sentinel recoded back to missing afterwards — i.e. the recoded assets
of the last group key itself, rather than the last non-missing one. -/
def dfEqAssetsSpec (m : List (S12Row × ℕ)) (w : ℕ) (y : ℤ) :
    Option (Option ℚ) :=
  (lastKey (eqKeys m w y)).map fun k => if k.2 = 0 then none else some k.2

/-! Concrete datasets used to witness the theorems below. -/

/-- Example CRSP panel: one share class, one December row. -/
def crspA : List CrspRow := [⟨1, 2000, 12, some 0, some 2⟩]

/-- Example static link table mapping share class 1 to fund 7. -/
def lnk1A : List Link1Row := [⟨1, some 7⟩]

/-- Example S12 panel: one report with missing assets. -/
def s12A : List S12Row := [⟨3, 100, 2000, none, some 5⟩]

/-- Example time-varying link table mapping report id 3 to fund 7. -/
def lnk2A : List Link2Row := [⟨90, 3, some 7⟩]

/-- Cleaned CRSP frame of the `crspA` dataset. -/
def frameA : List (CrspRow × ℕ) := [(⟨1, 2000, 12, some 0, some 2⟩, 7)]

/-- Matched S12 frame of the `s12A` dataset. -/
def mS12A : List (S12Row × ℕ) := [(⟨3, 100, 2000, none, some 5⟩, 7)]

/-- The joined fund-year row produced by the `A` dataset. -/
def rowA : ComboRow := ⟨7, 2000, 2, 0, none, 5⟩

/-- Example CRSP panel with two share classes reporting December TNA of
100 and 50. -/
def crspB : List CrspRow :=
  [⟨1, 2000, 12, some 0, some 100⟩, ⟨2, 2000, 12, some 0, some 50⟩]

/-- Static link table mapping both share classes of `crspB` to fund 7. -/
def lnk1B : List Link1Row := [⟨1, some 7⟩, ⟨2, some 7⟩]

/-- Cleaned CRSP frame of the `crspB` dataset. -/
def frameB : List (CrspRow × ℕ) :=
  [(⟨1, 2000, 12, some 0, some 100⟩, 7), (⟨2, 2000, 12, some 0, some 50⟩, 7)]

/-- Example CRSP panel with three observed months (January, February,
December) and monthly returns 1, 2, 3. -/
def crspW1 : List CrspRow :=
  [⟨1, 2000, 1, some 1, none⟩, ⟨1, 2000, 2, some 2, none⟩,
   ⟨1, 2000, 12, some 3, none⟩]

/-- Cleaned CRSP frame of the `crspW1` dataset. -/
def frameW1 : List (CrspRow × ℕ) :=
  [(⟨1, 2000, 1, some 1, none⟩, 7), (⟨1, 2000, 2, some 2, none⟩, 7),
   (⟨1, 2000, 12, some 3, none⟩, 7)]

/-- Example S12 panel with two reports in one year: the earlier one has
assets 5, the later (chronologically last) one has missing assets. -/
def s12D : List S12Row :=
  [⟨3, 1, 2000, some 5, some 10⟩, ⟨3, 2, 2000, none, some 20⟩]

/-- Time-varying link table for the `D` dataset. -/
def lnk2D : List Link2Row := [⟨1, 3, some 7⟩]

/-- Matched S12 frame of the `D` dataset. -/
def mS12D : List (S12Row × ℕ) :=
  [(⟨3, 1, 2000, some 5, some 10⟩, 7), (⟨3, 2, 2000, none, some 20⟩, 7)]

/-- Example S12 panel with one report whose assets is present (150). -/
def s12E : List S12Row := [⟨3, 100, 2000, some 150, some 140⟩]

/-- Matched S12 frame of the `E` dataset. -/
def mS12E : List (S12Row × ℕ) := [(⟨3, 100, 2000, some 150, some 140⟩, 7)]

/-- The joined fund-year row produced by the `E` dataset. -/
def rowE : ComboRow := ⟨7, 2000, 2, 0, some 150, 140⟩

/-! General lemmas about the embedding. -/

theorem keyLe_refl (p : ℤ × ℚ) : keyLe p p := Or.inr ⟨rfl, le_refl _⟩

theorem keyLe_total (p q : ℤ × ℚ) : keyLe p q ∨ keyLe q p := by
  rcases lt_trichotomy p.1 q.1 with h | h | h
  · exact Or.inl (Or.inl h)
  · rcases le_total p.2 q.2 with h2 | h2
    · exact Or.inl (Or.inr ⟨h, h2⟩)
    · exact Or.inr (Or.inr ⟨h.symm, h2⟩)
  · exact Or.inr (Or.inl h)

theorem keyLe_trans {p q r : ℤ × ℚ} (h1 : keyLe p q) (h2 : keyLe q r) :
    keyLe p r := by
  rcases h1 with h1 | ⟨h1, h1b⟩ <;> rcases h2 with h2 | ⟨h2, h2b⟩
  · exact Or.inl (h1.trans h2)
  · exact Or.inl (h2 ▸ h1)
  · exact Or.inl (h1 ▸ h2)
  · exact Or.inr ⟨h1.trans h2, h1b.trans h2b⟩

theorem foldl_lastStep_mem :
    ∀ (ks : List (ℤ × ℚ)) (acc : Option (ℤ × ℚ)) (k : ℤ × ℚ),
      ks.foldl lastStep acc = some k → k ∈ ks ∨ acc = some k
  | [], _, _, h => Or.inr h
  | a :: t, acc, k, h => by
    rcases foldl_lastStep_mem t (lastStep acc a) k h with ht | ht
    · exact Or.inl (List.mem_cons_of_mem _ ht)
    · cases acc with
      | none =>
        simp only [lastStep, Option.some_inj] at ht
        obtain rfl := ht
        exact Or.inl (List.mem_cons_self a t)
      | some b =>
        simp only [lastStep] at ht
        split at ht
        · obtain rfl := Option.some_inj.mp ht
          exact Or.inl (List.mem_cons_self a t)
        · exact Or.inr ht

theorem foldl_lastStep_le :
    ∀ (ks : List (ℤ × ℚ)) (acc : Option (ℤ × ℚ)) (k : ℤ × ℚ),
      ks.foldl lastStep acc = some k →
      (∀ x ∈ ks, keyLe x k) ∧ (∀ b, acc = some b → keyLe b k)
  | [], acc, k, h => by
    refine ⟨fun x hx => absurd hx (List.not_mem_nil x), fun b hb => ?_⟩
    rw [List.foldl_nil] at h
    rw [hb] at h
    exact (Option.some_inj.mp h) ▸ keyLe_refl b
  | a :: t, acc, k, h => by
    rw [List.foldl_cons] at h
    obtain ⟨hmem, hacc⟩ := foldl_lastStep_le t (lastStep acc a) k h
    have hstep : ∀ c, lastStep acc a = some c → keyLe a c := by
      intro c hc
      cases acc with
      | none =>
        simp only [lastStep, Option.some_inj] at hc
        exact hc ▸ keyLe_refl a
      | some b =>
        simp only [lastStep] at hc
        split at hc
        · exact (Option.some_inj.mp hc) ▸ keyLe_refl a
        · have hbc := Option.some_inj.mp hc
          next hba =>
            rcases keyLe_total a b with hab | hba2
            · exact hbc ▸ hab
            · exact absurd hba2 hba
    have hak : keyLe a k := by
      cases hs : lastStep acc a with
      | none =>
        exfalso
        cases acc with
        | none => simp [lastStep] at hs
        | some b =>
          simp only [lastStep] at hs
          split at hs <;> simp at hs
      | some c => exact keyLe_trans (hstep c hs) (hacc c hs)
    refine ⟨fun x hx => ?_, fun b hb => ?_⟩
    · rcases List.mem_cons.mp hx with rfl | hx
      · exact hak
      · exact hmem x hx
    · cases acc with
      | none => exact absurd hb (by simp)
      | some c =>
        obtain rfl := Option.some_inj.mp hb
        by_cases hba : keyLe c a
        · exact keyLe_trans hba hak
        · exact hacc c (by simp [lastStep, hba])

theorem lastKey_mem {ks : List (ℤ × ℚ)} {k : ℤ × ℚ}
    (h : lastKey ks = some k) : k ∈ ks := by
  rcases foldl_lastStep_mem ks none k h with h2 | h2
  · exact h2
  · exact absurd h2 (by simp)

theorem lastKey_le {ks : List (ℤ × ℚ)} {k : ℤ × ℚ}
    (h : lastKey ks = some k) : ∀ x ∈ ks, keyLe x k :=
  (foldl_lastStep_le ks none k h).1

theorem foldl_lastStep_ne_none :
    ∀ (ks : List (ℤ × ℚ)) (b : ℤ × ℚ),
      ks.foldl lastStep (some b) ≠ none
  | [], _ => by simp
  | a :: t, b => by
    rw [List.foldl_cons]
    show (t.foldl lastStep (lastStep (some b) a)) ≠ none
    have : ∃ c, lastStep (some b) a = some c := by
      by_cases hba : keyLe b a
      · exact ⟨a, by simp [lastStep, hba]⟩
      · exact ⟨b, by simp [lastStep, hba]⟩
    obtain ⟨c, hc⟩ := this
    rw [hc]
    exact foldl_lastStep_ne_none t c

theorem lastKey_eq_none_iff {ks : List (ℤ × ℚ)} :
    lastKey ks = none ↔ ks = [] := by
  constructor
  · intro h
    cases ks with
    | nil => rfl
    | cons a t =>
      rw [lastKey, List.foldl_cons] at h
      exact absurd (show t.foldl lastStep (lastStep none a) = none from h)
        (by simpa [lastStep] using foldl_lastStep_ne_none t a)
  · intro h; subst h; rfl

theorem monthsPresent_mem_iff {l : List (CrspRow × ℕ)} {w : ℕ} {y : ℤ}
    {m : ℕ} : m ∈ monthsPresent l w y ↔ retGroup l w y m ≠ [] := by
  rw [monthsPresent, List.mem_dedup]
  constructor
  · intro h
    rw [List.mem_map] at h
    obtain ⟨p, hp, hpm⟩ := h
    rw [List.mem_filter] at hp
    apply List.ne_nil_of_mem (a := p)
    rw [retGroup, List.mem_filter]
    refine ⟨hp.1, ?_⟩
    have h2 := hp.2
    simp only [Bool.and_eq_true, beq_iff_eq] at h2 ⊢
    exact ⟨h2, hpm⟩
  · intro h
    obtain ⟨p, hp⟩ := List.exists_mem_of_ne_nil _ h
    rw [retGroup, List.mem_filter] at hp
    rw [List.mem_map]
    refine ⟨p, ?_, ?_⟩
    · rw [List.mem_filter]
      refine ⟨hp.1, ?_⟩
      have h2 := hp.2
      simp only [Bool.and_eq_true, beq_iff_eq] at h2 ⊢
      exact ⟨h2.1.1, h2.1.2⟩
    · have h2 := hp.2
      simp only [Bool.and_eq_true, beq_iff_eq] at h2
      exact h2.2

theorem mem_crspFrame_month {crsp : List CrspRow} {lnk1 : List Link1Row}
    {p : CrspRow × ℕ} (hp : p ∈ crspFrame crsp lnk1) :
    ∃ r ∈ crsp, p.1.month = r.month := by
  rw [crspFrame, fillMret, List.mem_map] at hp
  obtain ⟨q, hq, rfl⟩ := hp
  rw [dropNullWficn, List.mem_filterMap] at hq
  obtain ⟨p2, hp2, hmap⟩ := hq
  rw [mergeLink1, List.mem_flatMap] at hp2
  obtain ⟨r, hr, hp2r⟩ := hp2
  rw [List.mem_map] at hp2r
  obtain ⟨lrow, _, rfl⟩ := hp2r
  cases hw : lrow.wficn with
  | none => rw [hw] at hmap; simp at hmap
  | some w =>
    rw [hw] at hmap
    simp only [Option.map_some] at hmap
    obtain rfl := Option.some_inj.mp hmap
    exact ⟨r, hr, rfl⟩

theorem retGroup_fillMret (l : List (CrspRow × ℕ)) (w : ℕ) (y : ℤ) (m : ℕ) :
    retGroup (fillMret l) w y m = fillMret (retGroup l w y m) := by
  rw [retGroup, retGroup, fillMret, fillMret, List.filter_map]
  congr 1

theorem sum_getD_eq_sum_filterMap :
    ∀ (g : List (CrspRow × ℕ)),
      (g.map fun p => p.1.mret.getD 0).sum =
        (g.filterMap fun p => p.1.mret).sum
  | [] => rfl
  | p :: t => by
    cases hm : p.1.mret with
    | none =>
      simp only [List.map_cons, List.sum_cons, List.filterMap_cons, hm,
        Option.getD_none, zero_add]
      exact sum_getD_eq_sum_filterMap t
    | some a =>
      simp only [List.map_cons, List.sum_cons, List.filterMap_cons, hm,
        Option.getD_some]
      rw [sum_getD_eq_sum_filterMap t]

theorem filterMap_id_map_some {α : Type} (f : α → ℚ) :
    ∀ g : List α, ((g.map fun p => some (f p)).filterMap id) = g.map f
  | [] => rfl
  | a :: t => by
    simp only [List.map_cons, List.filterMap_cons, id]
    rw [filterMap_id_map_some f t]

theorem monthsPresent_le_12 {crsp : List CrspRow} {lnk1 : List Link1Row}
    {w : ℕ} {y : ℤ} (hm : ∀ r ∈ crsp, r.month ≤ 12) :
    ∀ m ∈ monthsPresent (crspFrame crsp lnk1) w y, m ≤ 12 := by
  intro m hmem
  rw [monthsPresent, List.mem_dedup, List.mem_map] at hmem
  obtain ⟨p, hp, rfl⟩ := hmem
  obtain ⟨r, hr, hpr⟩ := mem_crspFrame_month (List.mem_of_mem_filter hp)
  exact hpr ▸ hm r hr

theorem mem_mkCombo {l : List (CrspRow × ℕ)} {m : List (S12Row × ℕ)}
    {r : ComboRow} (hr : r ∈ mkCombo l m) :
    crspClean l r.wficn r.year = some (r.crsp_tna, r.yret) ∧
    dfEqRow m r.wficn r.year = some (r.assets, r.useq_tna_k) := by
  rw [mkCombo, List.mem_filterMap] at hr
  obtain ⟨k, hk, hf⟩ := hr
  cases hcc : crspClean l k.1 k.2 with
  | none => rw [hcc] at hf; simp at hf
  | some pr =>
    cases hde : dfEqRow m k.1 k.2 with
    | none =>
      rw [hcc, hde] at hf
      obtain ⟨t, rt⟩ := pr
      simp at hf
    | some qr =>
      rw [hcc, hde] at hf
      obtain ⟨t, rt⟩ := pr
      obtain ⟨a, u⟩ := qr
      simp only [Option.some_inj] at hf
      subst hf
      exact ⟨hcc, hde⟩

theorem dfEqRow_assets {m : List (S12Row × ℕ)} {w : ℕ} {y : ℤ}
    {a : Option ℚ} {u : ℚ} (h : dfEqRow m w y = some (a, u)) :
    dfEqAssets m w y = a := by
  rw [dfEqRow] at h
  cases hu : dfEqUseq m w y with
  | none => rw [hu] at h; simp at h
  | some u2 =>
    rw [hu] at h
    simp only [Option.some_inj, Prod.mk.injEq] at h
    exact h.1

theorem dfEqAssets_ne_zero {m : List (S12Row × ℕ)} {w : ℕ} {y : ℤ} {a : ℚ}
    (h : dfEqAssets m w y = some a) : a ≠ 0 := by
  rw [dfEqAssets] at h
  cases hk : lastKey ((eqKeys m w y).filter fun k => k.2 != 0) with
  | none => rw [hk] at h; simp at h
  | some k =>
    rw [hk] at h
    simp only [Option.map_some', Option.some_inj] at h
    have hmem := lastKey_mem hk
    rw [List.mem_filter] at hmem
    have hne : k.2 ≠ 0 := by simpa using hmem.2
    exact h ▸ hne

/-! Evaluation lemmas for the concrete datasets. -/

theorem crspFrame_exA : crspFrame crspA lnk1A = frameA := by decide

theorem matchedS12_exA : matchedS12 s12A lnk2A = mS12A := by decide

theorem crspClean_exA : crspClean frameA 7 2000 = some (2, 0) := by
  have hg : retGroup frameA 7 2000 12 = frameA := by decide
  have htna : crspTna frameA 7 2000 = some 2 := by
    rw [crspTna, if_neg (by decide), hg]
    norm_num [frameA, List.filterMap_cons]
  have hmean : monthMean frameA 7 2000 12 = 0 := by
    rw [monthMean, hg]
    norm_num [optMean, frameA, List.filterMap_cons]
  have hmp : monthsPresent frameA 7 2000 = [12] := by decide
  have hyret : yret frameA 7 2000 = some 0 := by
    rw [yret, if_neg (by decide), cumretAt, hmp]
    norm_num [hmean]
  rw [crspClean, htna, hyret]

theorem dfEqRow_exA : dfEqRow mS12A 7 2000 = some (none, 5) := by
  have hkeys : eqKeys mS12A 7 2000 = [(100, 0)] := by decide
  have husum : useqSum mS12A 7 2000 (100, 0) = 5 := by
    rw [useqSum]
    norm_num [mS12A, List.filterMap_cons]
  have huseq : dfEqUseq mS12A 7 2000 = some 5 := by
    rw [dfEqUseq, hkeys]
    simp [lastKey, lastStep, husum]
  have hassets : dfEqAssets mS12A 7 2000 = none := by decide
  rw [dfEqRow, huseq, hassets]

theorem dfCombo_exA : dfCombo crspA lnk1A s12A lnk2A = [rowA] := by
  rw [dfCombo, crspFrame_exA, matchedS12_exA, mkCombo]
  have hck : comboKeys frameA = [(7, 2000)] := by decide
  rw [hck]
  simp [crspClean_exA, dfEqRow_exA, rowA]

theorem filterTnaMin_exA : filterTnaMin [rowA] = [rowA] := by
  simp [filterTnaMin, rowA]

theorem tnaRat_exA : tnaRat rowA = 1 := by simp [tnaRat, rowA]

theorem filterTnaRat_exA : filterTnaRat [rowA] = [rowA] := by
  simp [filterTnaRat, tnaRat_exA]
  norm_num

theorem eqRat2_exA : eqRat2 rowA = 1 := by simp [eqRat2, rowA]

theorem filterEqRat_exA : filterEqRat [rowA] = [rowA] := by
  simp [filterEqRat, eqRat2_exA]
  norm_num

theorem comboFinal_exA : comboFinal crspA lnk1A s12A lnk2A = [rowA] := by
  rw [comboFinal, dfCombo_exA, filterTnaMin_exA, filterTnaRat_exA, filterEqRat_exA]

theorem crspFrame_exB : crspFrame crspB lnk1B = frameB := by decide

theorem crspClean_exB : crspClean (crspFrame crspB lnk1B) 7 2000 = some (150, 0) := by
  rw [crspFrame_exB]
  have hg : retGroup frameB 7 2000 12 = frameB := by decide
  have htna : crspTna frameB 7 2000 = some 150 := by
    rw [crspTna, if_neg (by decide), hg]
    norm_num [frameB, List.filterMap_cons]
  have hmean : monthMean frameB 7 2000 12 = 0 := by
    rw [monthMean, hg]
    norm_num [optMean, frameB, List.filterMap_cons]
  have hmp : monthsPresent frameB 7 2000 = [12] := by decide
  have hyret : yret frameB 7 2000 = some 0 := by
    rw [yret, if_neg (by decide), cumretAt, hmp]
    norm_num [hmean]
  rw [crspClean, htna, hyret]

theorem crspFrame_exW1 : crspFrame crspW1 lnk1A = frameW1 := by decide

theorem yret_exW1 : yret (crspFrame crspW1 lnk1A) 7 2000 = some 23 := by
  rw [crspFrame_exW1]
  have hm1 : monthMean frameW1 7 2000 1 = 1 := by
    have hg : retGroup frameW1 7 2000 1 = [(⟨1, 2000, 1, some 1, none⟩, 7)] := by decide
    rw [monthMean, hg]
    norm_num [optMean, List.filterMap_cons]
  have hm2 : monthMean frameW1 7 2000 2 = 2 := by
    have hg : retGroup frameW1 7 2000 2 = [(⟨1, 2000, 2, some 2, none⟩, 7)] := by decide
    rw [monthMean, hg]
    norm_num [optMean, List.filterMap_cons]
  have hm12 : monthMean frameW1 7 2000 12 = 3 := by
    have hg : retGroup frameW1 7 2000 12 = [(⟨1, 2000, 12, some 3, none⟩, 7)] := by decide
    rw [monthMean, hg]
    norm_num [optMean, List.filterMap_cons]
  have hmp : monthsPresent frameW1 7 2000 = [1, 2, 12] := by decide
  rw [yret, if_neg (by decide), cumretAt, hmp]
  norm_num [hm1, hm2, hm12]

theorem matchedS12_exD : matchedS12 s12D lnk2D = mS12D := by decide

theorem eqKeys_exD : eqKeys mS12D 7 2000 = [(1, 5), (2, 0)] := by decide

theorem lastKey_exD : lastKey (eqKeys mS12D 7 2000) = some (2, 0) := by
  rw [eqKeys_exD]
  simp [lastKey, lastStep, keyLe]

theorem matchedS12_exE : matchedS12 s12E lnk2A = mS12E := by decide

theorem dfEqRow_exE : dfEqRow mS12E 7 2000 = some (some 150, 140) := by
  have hkeys : eqKeys mS12E 7 2000 = [(100, 150)] := by decide
  have husum : useqSum mS12E 7 2000 (100, 150) = 140 := by
    rw [useqSum]
    norm_num [mS12E, List.filterMap_cons]
  have huseq : dfEqUseq mS12E 7 2000 = some 140 := by
    rw [dfEqUseq, hkeys]
    simp [lastKey, lastStep, husum]
  have hassets : dfEqAssets mS12E 7 2000 = some 150 := by decide
  rw [dfEqRow, huseq, hassets]

theorem dfCombo_exE : dfCombo crspA lnk1A s12E lnk2A = [rowE] := by
  rw [dfCombo, crspFrame_exA, matchedS12_exE, mkCombo]
  have hck : comboKeys frameA = [(7, 2000)] := by decide
  rw [hck]
  simp [crspClean_exA, dfEqRow_exE, rowE]

theorem filterTnaMin_exE : filterTnaMin [rowE] = [rowE] := by
  simp [filterTnaMin, rowE]

theorem tnaRat_exE : tnaRat rowE = 4 / 3 := by
  simp [tnaRat, rowE]
  norm_num

theorem filterTnaRat_exE : filterTnaRat [rowE] = [rowE] := by
  simp [filterTnaRat, tnaRat_exE]
  norm_num

/-! Claim theorems. -/

/-- Claim C1: for every fund-level id and year, the annual return reported
in the output equals the product, over the months of that year available in
the data, of (1 + the simple mean of that month's returns across the fund's
share classes), minus 1. -/
theorem C1_annual_return_compounds (crsp : List CrspRow) (lnk1 : List Link1Row)
    (w : ℕ) (y : ℤ) (v : ℚ) (hm : ∀ r ∈ crsp, r.month ≤ 12)
    (h : yret (crspFrame crsp lnk1) w y = some v) :
    v = ((monthsPresent (crspFrame crsp lnk1) w y).map
      fun m => 1 + monthMean (crspFrame crsp lnk1) w y m).prod - 1 := by
  by_cases hg : retGroup (crspFrame crsp lnk1) w y 12 = []
  · rw [yret, if_pos hg] at h
    exact absurd h (by simp)
  · rw [yret, if_neg hg] at h
    have hv := Option.some_inj.mp h
    rw [← hv, cumretAt]
    have hfil : (monthsPresent (crspFrame crsp lnk1) w y).filter
        (fun m2 => m2 ≤ 12) = monthsPresent (crspFrame crsp lnk1) w y :=
      List.filter_eq_self.mpr fun m2 hm2 => by
        simpa using monthsPresent_le_12 hm m2 hm2
    rw [hfil]

/-- Witness for C1 on the `W1` dataset: monthly mean returns 1, 2 and 3
compound to (1+1)(1+2)(1+3) - 1 = 23. -/
theorem C1_witness :
    (23 : ℚ) = ((monthsPresent (crspFrame crspW1 lnk1A) 7 2000).map
      fun m => 1 + monthMean (crspFrame crspW1 lnk1A) 7 2000 m).prod - 1 :=
  C1_annual_return_compounds crspW1 lnk1A 7 2000 23 (by decide) yret_exW1

/-- Claim C2: every fund-year record remaining after the equity-ratio
filter (the last universe filter) has eq_ratio_1 in [0.8, 1.05] or
eq_ratio_2 in [0.8, 1.05]; eq_ratio_2 is defaulted to 1 when assets is
missing. -/
theorem C2_equity_ratio_filter_invariant (crsp : List CrspRow)
    (lnk1 : List Link1Row) (s12 : List S12Row) (lnk2 : List Link2Row)
    (r : ComboRow) (hr : r ∈ comboFinal crsp lnk1 s12 lnk2) :
    (((0.8 : ℚ) ≤ eqRat1 r ∧ eqRat1 r ≤ 1.05) ∨
      ((0.8 : ℚ) ≤ eqRat2 r ∧ eqRat2 r ≤ 1.05)) ∧
    (r.assets = none → eqRat2 r = 1) := by
  refine ⟨?_, fun h => by simp [eqRat2, h]⟩
  rw [comboFinal, filterEqRat, List.mem_filter] at hr
  exact of_decide_eq_true hr.2

/-- Witness for C2 on the `A` dataset. -/
theorem C2_witness :
    (((0.8 : ℚ) ≤ eqRat1 rowA ∧ eqRat1 rowA ≤ 1.05) ∨
      ((0.8 : ℚ) ≤ eqRat2 rowA ∧ eqRat2 rowA ≤ 1.05)) ∧ eqRat2 rowA = 1 :=
  have h := C2_equity_ratio_filter_invariant crspA lnk1A s12A lnk2A rowA
    (by rw [comboFinal_exA]; exact List.mem_singleton.mpr rfl)
  ⟨h.1, h.2 rfl⟩

/-- Claim C3: tna_ratio equals 1 exactly when holdings assets is missing
and equals (CRSP TNA × 1e6) / (assets × 1e4) otherwise, and every record
surviving the TNA-ratio filter satisfies 0.5 < tna_ratio < 2 strictly. -/
theorem C3_tna_ratio_formula_and_bounds (crsp : List CrspRow)
    (lnk1 : List Link1Row) (s12 : List S12Row) (lnk2 : List Link2Row) :
    (∀ r : ComboRow, r.assets = none → tnaRat r = 1) ∧
    (∀ (r : ComboRow) (a : ℚ), r.assets = some a →
      tnaRat r = r.crsp_tna * 1000000 / (a * 10000)) ∧
    (∀ r ∈ filterTnaRat (filterTnaMin (dfCombo crsp lnk1 s12 lnk2)),
      (0.5 : ℚ) < tnaRat r ∧ tnaRat r < 2) := by
  refine ⟨fun r h => by simp [tnaRat, h], fun r a h => ?_, fun r hr => ?_⟩
  · rw [tnaRat, h]
    exact div_div _ _ _
  · rw [filterTnaRat, List.mem_filter] at hr
    exact of_decide_eq_true hr.2

/-- Witness for C3: the `A`-dataset row survives the TNA-ratio filter with
ratio in bounds, and the `E` row with assets 150 uses the formula. -/
theorem C3_witness :
    ((0.5 : ℚ) < tnaRat rowA ∧ tnaRat rowA < 2) ∧
    tnaRat rowE = rowE.crsp_tna * 1000000 / (150 * 10000) :=
  ⟨(C3_tna_ratio_formula_and_bounds crspA lnk1A s12A lnk2A).2.2 rowA
    (by rw [dfCombo_exA, filterTnaMin_exA, filterTnaRat_exA]
        exact List.mem_singleton.mpr rfl),
   (C3_tna_ratio_formula_and_bounds crspA lnk1A s12A lnk2A).2.1 rowE 150 rfl⟩

/-- Claim C4: the year-end TNA of a fund-year is the sum of the December
TNA values across share classes, and a fund-year with no December data is
absent from the output. -/
theorem C4_year_end_tna_sum_december (crsp : List CrspRow)
    (lnk1 : List Link1Row) (w : ℕ) (y : ℤ) :
    (retGroup (crspFrame crsp lnk1) w y 12 = [] →
      crspClean (crspFrame crsp lnk1) w y = none) ∧
    (∀ t r2 : ℚ, crspClean (crspFrame crsp lnk1) w y = some (t, r2) →
      t = ((retGroup (crspFrame crsp lnk1) w y 12).filterMap
        fun p => p.1.mtna).sum) := by
  constructor
  · intro h
    simp [crspClean, crspTna, yret, h]
  · intro t r2 h2
    by_cases hg : retGroup (crspFrame crsp lnk1) w y 12 = []
    · rw [crspClean, crspTna, if_pos hg, yret, if_pos hg] at h2
      simp at h2
    · rw [crspClean, crspTna, if_neg hg, yret, if_neg hg] at h2
      simp only [Option.some_inj, Prod.mk.injEq] at h2
      exact h2.1.symm

/-- Witness for C4 on the `B` dataset: December TNAs 100 and 50 sum to
150. -/
theorem C4_witness :
    (150 : ℚ) = ((retGroup (crspFrame crspB lnk1B) 7 2000 12).filterMap
      fun p => p.1.mtna).sum :=
  (C4_year_end_tna_sum_december crspB lnk1B 7 2000).2 150 0 crspClean_exB

/-- Claim C5, counterexample: on the `D` dataset the chronologically last
report of the year is the key (2, 0) whose recoded assets is missing, so
the spec-side reading predicts missing assets, but the code returns the
assets 5 of the earlier report (pandas `last()` skips nulls). -/
theorem C5_cex_last_report_assets :
    dfEqAssets (matchedS12 s12D lnk2D) 7 2000 = some 5 ∧
    dfEqAssetsSpec (matchedS12 s12D lnk2D) 7 2000 = some none ∧
    lastKey (eqKeys (matchedS12 s12D lnk2D) 7 2000) = some (2, 0) := by
  rw [matchedS12_exD]
  refine ⟨by decide, ?_, lastKey_exD⟩
  rw [dfEqAssetsSpec, lastKey_exD]
  simp

/-- Claim C5 as amended: the equity-holdings value comes from the
chronologically last group of the fund-year, while the assets value is the
value of the last group key whose recoded assets is non-missing (missing
only when every key carries the zero sentinel). -/
theorem C5_last_aggregation_semantics (m : List (S12Row × ℕ)) (w : ℕ)
    (y : ℤ) :
    (∀ k, lastKey (eqKeys m w y) = some k →
      dfEqUseq m w y = some (useqSum m w y k)) ∧
    (∀ a : ℚ, dfEqAssets m w y = some a →
      ∃ k ∈ eqKeys m w y, k.2 = a ∧ a ≠ 0 ∧
        ∀ k2 ∈ eqKeys m w y, k2.2 ≠ 0 → keyLe k2 k) ∧
    ((∀ k ∈ eqKeys m w y, k.2 = 0) → dfEqAssets m w y = none) := by
  refine ⟨fun k hk => by rw [dfEqUseq, hk]; rfl, fun a ha => ?_, fun hall => ?_⟩
  · rw [dfEqAssets] at ha
    cases hlk : lastKey ((eqKeys m w y).filter fun k => k.2 != 0) with
    | none => rw [hlk] at ha; simp at ha
    | some k0 =>
      rw [hlk] at ha
      simp only [Option.map_some', Option.some_inj] at ha
      have hmem := lastKey_mem hlk
      rw [List.mem_filter] at hmem
      have hne : k0.2 ≠ 0 := by simpa using hmem.2
      refine ⟨k0, hmem.1, ha, ha ▸ hne, fun k2 hk2 hk2ne => ?_⟩
      exact lastKey_le hlk k2 (List.mem_filter.mpr ⟨hk2, by simpa using hk2ne⟩)
  · rw [dfEqAssets]
    have hnil : (eqKeys m w y).filter (fun k => k.2 != 0) = [] :=
      List.filter_eq_nil_iff.mpr fun k hk => by simpa using hall k hk
    rw [hnil]
    rfl

/-- Witness for the amended C5 on the `D` dataset: the equity value is the
last group's sum. -/
theorem C5_witness :
    dfEqUseq (matchedS12 s12D lnk2D) 7 2000 =
      some (useqSum (matchedS12 s12D lnk2D) 7 2000 (2, 0)) :=
  (C5_last_aggregation_semantics (matchedS12 s12D lnk2D) 7 2000).1 (2, 0)
    (by rw [matchedS12_exD]; exact lastKey_exD)

/-- Claim C6: a return row whose share-class id has no match in the static
link table, and a holdings row whose report id has no row in the
time-varying link table, are dropped by the joins and therefore absent
from every downstream output. -/
theorem C6_unmatched_rows_dropped (crsp : List CrspRow)
    (lnk1 : List Link1Row) (s12 : List S12Row) (lnk2 : List Link2Row)
    (r : CrspRow) (s : S12Row)
    (hr : ∀ l ∈ lnk1, l.crsp_fundno ≠ r.crsp_fundno)
    (hs : ∀ l ∈ lnk2, l.fundno ≠ s.fundno) :
    crspFrame (crsp ++ [r]) lnk1 = crspFrame crsp lnk1 ∧
    matchedS12 (s12 ++ [s]) lnk2 = matchedS12 s12 lnk2 ∧
    dfCombo (crsp ++ [r]) lnk1 (s12 ++ [s]) lnk2 = dfCombo crsp lnk1 s12 lnk2 ∧
    comboFinal (crsp ++ [r]) lnk1 (s12 ++ [s]) lnk2 =
      comboFinal crsp lnk1 s12 lnk2 := by
  have hnil1 : (lnk1.filter fun l => l.crsp_fundno == r.crsp_fundno) = [] :=
    List.filter_eq_nil_iff.mpr fun l hl => by
      simpa using hr l hl
  have h1 : crspFrame (crsp ++ [r]) lnk1 = crspFrame crsp lnk1 := by
    rw [crspFrame, crspFrame, mergeLink1, mergeLink1, List.flatMap_append]
    simp [hnil1]
  have hnil2 : (lnk2.filter fun l => l.fundno == s.fundno) = [] :=
    List.filter_eq_nil_iff.mpr fun l hl => by
      simpa using hs l hl
  have h2 : matchedS12 (s12 ++ [s]) lnk2 = matchedS12 s12 lnk2 := by
    rw [matchedS12, matchedS12, mergeAsof, mergeAsof, List.map_append,
      List.filterMap_append]
    simp [asofNearest, hnil2]
  have h3 : dfCombo (crsp ++ [r]) lnk1 (s12 ++ [s]) lnk2 =
      dfCombo crsp lnk1 s12 lnk2 := by
    rw [dfCombo, dfCombo, h1, h2]
  exact ⟨h1, h2, h3, by rw [comboFinal, comboFinal, h3]⟩

/-- Witness for C6: appending a return row with share-class id 99 and a
holdings row with report id 55, both unmatched, leaves the joined table
unchanged. -/
theorem C6_witness :
    dfCombo (crspA ++ [⟨99, 2000, 6, none, none⟩]) lnk1A
        (s12A ++ [⟨55, 10, 2000, none, none⟩]) lnk2A =
      dfCombo crspA lnk1A s12A lnk2A :=
  (C6_unmatched_rows_dropped crspA lnk1A s12A lnk2A
    ⟨99, 2000, 6, none, none⟩ ⟨55, 10, 2000, none, none⟩
    (by decide) (by decide)).2.2.1

/-- Claim C7: only the December cumulative compounded value is retained as
the annual figure — present exactly when December is among the observed
months, and then equal to the product over the observed months up to
December (a partial product when coverage is incomplete, with no flag). -/
theorem C7_december_only_partial_product (crsp : List CrspRow)
    (lnk1 : List Link1Row) (w : ℕ) (y : ℤ) :
    (12 ∈ monthsPresent (crspFrame crsp lnk1) w y ∧
      yret (crspFrame crsp lnk1) w y =
        some ((((monthsPresent (crspFrame crsp lnk1) w y).filter
            fun m2 => m2 ≤ 12).map
          fun m2 => 1 + monthMean (crspFrame crsp lnk1) w y m2).prod - 1)) ∨
    (12 ∉ monthsPresent (crspFrame crsp lnk1) w y ∧
      yret (crspFrame crsp lnk1) w y = none) := by
  by_cases hg : retGroup (crspFrame crsp lnk1) w y 12 = []
  · exact Or.inr ⟨fun hc => (monthsPresent_mem_iff.mp hc) hg,
      by rw [yret, if_pos hg]⟩
  · exact Or.inl ⟨monthsPresent_mem_iff.mpr hg,
      by rw [yret, if_neg hg, cumretAt]⟩

/-- Claim C8, counterexample: on the `A` dataset the joined table is
nonempty and none of the three universe filters removes a record, so the
filters do not each strictly narrow the retained set. -/
theorem C8_cex_filters_not_strict :
    filterTnaMin (dfCombo crspA lnk1A s12A lnk2A) =
      dfCombo crspA lnk1A s12A lnk2A ∧
    filterTnaRat (filterTnaMin (dfCombo crspA lnk1A s12A lnk2A)) =
      filterTnaMin (dfCombo crspA lnk1A s12A lnk2A) ∧
    filterEqRat (filterTnaRat (filterTnaMin (dfCombo crspA lnk1A s12A lnk2A))) =
      filterTnaRat (filterTnaMin (dfCombo crspA lnk1A s12A lnk2A)) ∧
    dfCombo crspA lnk1A s12A lnk2A ≠ [] := by
  rw [dfCombo_exA, filterTnaMin_exA, filterTnaRat_exA, filterEqRat_exA]
  exact ⟨rfl, rfl, rfl, by simp⟩

/-- Claim C8 as amended: the three universe filters are applied
sequentially to the joined fund-year table and each retains a sublist of
(never adds to) its input; strict narrowing depends on the data. -/
theorem C8_filters_weakly_narrow (crsp : List CrspRow)
    (lnk1 : List Link1Row) (s12 : List S12Row) (lnk2 : List Link2Row) :
    List.Sublist (filterTnaMin (dfCombo crsp lnk1 s12 lnk2))
      (dfCombo crsp lnk1 s12 lnk2) ∧
    List.Sublist (filterTnaRat (filterTnaMin (dfCombo crsp lnk1 s12 lnk2)))
      (filterTnaMin (dfCombo crsp lnk1 s12 lnk2)) ∧
    List.Sublist (comboFinal crsp lnk1 s12 lnk2)
      (filterTnaRat (filterTnaMin (dfCombo crsp lnk1 s12 lnk2))) :=
  ⟨List.filter_sublist _, List.filter_sublist _, List.filter_sublist _⟩

/-- Claim C9: missing monthly returns are replaced by 0 before the
per-month mean across share classes is taken, so the mean equals the sum
of the available returns divided by the total number of rows of the group
(missing rows included in the denominator). -/
theorem C9_missing_returns_zero_in_mean (crsp : List CrspRow)
    (lnk1 : List Link1Row) (w : ℕ) (y : ℤ) (m : ℕ) :
    monthMean (crspFrame crsp lnk1) w y m =
      ((retGroup (dropNullWficn (mergeLink1 crsp lnk1)) w y m).filterMap
        fun p => p.1.mret).sum /
      ((retGroup (dropNullWficn (mergeLink1 crsp lnk1)) w y m).length : ℚ) := by
  rw [monthMean, crspFrame, retGroup_fillMret, optMean]
  have hmap : (fillMret (retGroup (dropNullWficn (mergeLink1 crsp lnk1)) w y m)).map
      (fun p => p.1.mret) =
      (retGroup (dropNullWficn (mergeLink1 crsp lnk1)) w y m).map
        (fun p => some (p.1.mret.getD 0)) := by
    rw [fillMret, List.map_map]
    rfl
  rw [hmap, filterMap_id_map_some, sum_getD_eq_sum_filterMap, List.length_map]

/-- Claim C10: no ratio computation divides by zero — after the first
filter CRSP TNA exceeds 1 (so eq_ratio_1's denominator is nonzero), and a
non-missing assets value is nonzero after the zero-to-missing recode (so
tna_ratio's and eq_ratio_2's denominators are nonzero). -/
theorem C10_no_division_by_zero (crsp : List CrspRow)
    (lnk1 : List Link1Row) (s12 : List S12Row) (lnk2 : List Link2Row) :
    (∀ r ∈ filterTnaMin (dfCombo crsp lnk1 s12 lnk2),
      ∀ a : ℚ, r.assets = some a → a * 10000 ≠ 0) ∧
    (∀ r ∈ filterTnaRat (filterTnaMin (dfCombo crsp lnk1 s12 lnk2)),
      r.crsp_tna * 1000000 ≠ 0) ∧
    (∀ r ∈ filterTnaRat (filterTnaMin (dfCombo crsp lnk1 s12 lnk2)),
      ∀ a : ℚ, r.assets = some a → a * 10000 ≠ 0) := by
  have hassets : ∀ r ∈ dfCombo crsp lnk1 s12 lnk2,
      ∀ a : ℚ, r.assets = some a → a * 10000 ≠ 0 := by
    intro r hrm a ha
    rw [dfCombo] at hrm
    obtain ⟨_, hde⟩ := mem_mkCombo hrm
    have hda := dfEqRow_assets hde
    rw [ha] at hda
    exact mul_ne_zero (dfEqAssets_ne_zero hda) (by norm_num)
  refine ⟨fun r hrm => hassets r (List.mem_of_mem_filter hrm),
    fun r hrm => ?_,
    fun r hrm => hassets r
      (List.mem_of_mem_filter (List.mem_of_mem_filter hrm))⟩
  have h1 : r ∈ filterTnaMin (dfCombo crsp lnk1 s12 lnk2) :=
    List.mem_of_mem_filter hrm
  rw [filterTnaMin, List.mem_filter] at h1
  have h2 : (1 : ℚ) < r.crsp_tna := of_decide_eq_true h1.2
  exact mul_ne_zero (lt_trans zero_lt_one h2).ne' (by norm_num)

/-- Witness for C10: the `E` row's assets 150 gives a nonzero denominator,
and the `A` row's CRSP TNA gives a nonzero denominator. -/
theorem C10_witness :
    (150 : ℚ) * 10000 ≠ 0 ∧ rowA.crsp_tna * 1000000 ≠ 0 :=
  ⟨(C10_no_division_by_zero crspA lnk1A s12E lnk2A).1 rowE
      (by rw [dfCombo_exE, filterTnaMin_exE]; exact List.mem_singleton.mpr rfl)
      150 rfl,
   (C10_no_division_by_zero crspA lnk1A s12A lnk2A).2.1 rowA
      (by rw [dfCombo_exA, filterTnaMin_exA, filterTnaRat_exA]
          exact List.mem_singleton.mpr rfl)⟩

end FactorDemand
